import Mathlib

/-!
Shallow embedding of the token-lifecycle and authenticated-request core of the
`@fivenorth/id-sdk` TypeScript client (files `src/connection.ts`,
`src/constants.ts`, `src/errors.ts`), together with theorems settling the
behavioural claims about it.

HTTP exchanges are modelled by oracles: each call of the SDK consumes
pre-supplied replies (an `Env` for one authenticated `request`, a single reply
record for one token exchange or one bare fetch), and every function returns,
besides its result and the updated connection state, the list of observable
network events it performed, in order.
-/

deriving instance DecidableEq for Except

/- ===== Constants (src/constants.ts) ===== -/

/-- `TOKEN.BUFFER_TIME_MS` — 1 minute buffer before token expiration. -/
def BUFFER_TIME_MS : Int := 60000

/-- `BATCH.MAX_REQUESTS`. -/
def MAX_REQUESTS : Nat := 100

/-- `ERROR_MESSAGES.INVALID_CLIENT_CREDENTIALS`. -/
def INVALID_CLIENT_CREDENTIALS : String := "Invalid client credentials"

/-- `ERROR_MESSAGES.AUTHENTICATION_FAILED`. -/
def AUTHENTICATION_FAILED : String := "Authentication failed"

/-- `ERROR_MESSAGES.TOKEN_NOT_FOUND`. -/
def TOKEN_NOT_FOUND : String := "Token not found or expired"

/-- `ERROR_MESSAGES.MAX_BATCH_REQUESTS`. -/
def MAX_BATCH_REQUESTS : String := "Maximum 100 requests per batch"

/-- `ERROR_MESSAGES.FAILED_TO_OBTAIN_TOKEN`. -/
def FAILED_TO_OBTAIN_TOKEN : String := "Failed to obtain access token"

/-- `ERROR_MESSAGES.API_REQUEST_FAILED`. -/
def API_REQUEST_FAILED : String := "API request failed"

/-- `ERROR_MESSAGES.FAILED_TO_CHECK_VERIFICATION`. -/
def FAILED_TO_CHECK_VERIFICATION : String := "Failed to check verification status"

/-- `BASE_URLS.devnet`. -/
def BASE_URL_DEVNET : String := "https://id.devnet.cantonloop.com/api/v1"

/-- `BASE_URLS.mainnet`. -/
def BASE_URL_MAINNET : String := "https://id.cantonloop.com/api/v1"

/-- `TOKEN_ENDPOINTS.devnet`. -/
def TOKEN_ENDPOINT_DEVNET : String :=
  "https://auth.console-dev.fivenorth.io/realms/5n-apps/protocol/openid-connect/token"

/-- `TOKEN_ENDPOINTS.mainnet`. -/
def TOKEN_ENDPOINT_MAINNET : String :=
  "https://auth.console-dev.fivenorth.io/realms/5n-apps-mainnet/protocol/openid-connect/token"

/-- `DEFAULT_NETWORK`. -/
def DEFAULT_NETWORK : String := "mainnet"

/-- `ENDPOINTS.CREDENTIALS_ACCESS_REQUEST` (path value from the spec's endpoint
table entry `POST /institutions/me/credentials/request`, named
`CREDENTIALS_REQUEST` in `src/constants.ts`). -/
def CREDENTIALS_ACCESS_REQUEST : String := "/institutions/me/credentials/request"

/-- `ENDPOINTS.CREDENTIALS`. -/
def CREDENTIALS : String := "/institutions/me/credentials"

/-- `ENDPOINTS.CREDENTIALS_BY_PARTY` (path of `ENDPOINTS.CREDENTIALS`; a path
segment with the party id is appended by the caller). -/
def CREDENTIALS_BY_PARTY : String := "/institutions/me/credentials"

/-- `ENDPOINTS.RESOLVE_CREDENTIALS` (named `CREDENTIALS_RESOLVE` in
`src/constants.ts`). -/
def RESOLVE_CREDENTIALS : String := "/institutions/me/credentials/resolve"

/-- `ENDPOINTS.VERIFICATION_GENERATE_LINK`. -/
def VERIFICATION_GENERATE_LINK : String := "/verification/generate-link"

/-- `ENDPOINTS.VERIFICATION_GENERATE_LINKS_BATCH`. -/
def VERIFICATION_GENERATE_LINKS_BATCH : String := "/verification/generate-links-batch"

/-- `ENDPOINTS.VERIFICATION_CHECK`. -/
def VERIFICATION_CHECK : String := "/verification/check"

/-- `ENDPOINTS.HUMAN_SCORE` (path value from `HUMAN_SCORE_BY_PARTY` in
`src/constants.ts` and the spec's endpoint table). -/
def HUMAN_SCORE : String := "/institutions/me/human-scores"

/-- `HTTP.METHODS.GET`. -/
def METHOD_GET : String := "GET"

/-- `HTTP.METHODS.POST`. -/
def METHOD_POST : String := "POST"

/-- The content-length header value compared against in `request` (the literal
string `0` of `response.headers.get(content-length) === 0-as-string`). -/
def ZERO_LENGTH : String := "0"

/-- The scheme test prefix used by `request` (`endpoint.startsWith(...)`). -/
def HTTP_SCHEME : String := "http"

/-- The Bearer scheme prefix of the Authorization header value. -/
def BEARER : String := "Bearer "

/-- The empty string (target of the non-null assertion fallback). -/
def EMPTY : String := ""

/-- Validation message of `resolveCredentials` when neither option is given. -/
def EITHER_Q_OR_PARTYID : String :=
  "Either q (email/username) or partyId must be provided"

/-- Validation message of `resolveCredentials` when both options are given. -/
def CANNOT_PROVIDE_BOTH : String :=
  "Cannot provide both q and partyId. Provide either q (for forward lookup) or partyId (for reverse lookup)"

/- ===== Percent-encoding (platform model: URLSearchParams / encodeURIComponent) ===== -/

/-- Hexadecimal digit character (uppercase) for a value below 16. -/
def hexDigitChar (n : Nat) : Char :=
  if n < 10 then Char.ofNat (48 + n) else Char.ofNat (55 + n)

/-- Percent-encoding of one byte, `%XY` with uppercase hex. -/
def percentEncodeByte (b : Nat) : String :=
  String.mk [Char.ofNat 37, hexDigitChar (b / 16), hexDigitChar (b % 16)]

/-- Bytes kept verbatim by the `application/x-www-form-urlencoded` serializer:
ASCII alphanumerics and `*`, `-`, `.`, `_`. -/
def isFormSafeByte (b : Nat) : Bool :=
  (48 ≤ b && b ≤ 57) || (65 ≤ b && b ≤ 90) || (97 ≤ b && b ≤ 122) ||
    b == 42 || b == 45 || b == 46 || b == 95

/-- One byte of form-urlencoded output: safe bytes verbatim, space as `+`,
everything else percent-encoded. -/
def formEncodeByte (b : Nat) : String :=
  if isFormSafeByte b then String.mk [Char.ofNat b]
  else if b == 32 then String.mk [Char.ofNat 43]
  else percentEncodeByte b

/-- Models `URLSearchParams` value serialization over the UTF-8 bytes of a
string. -/
def formUrlEncode (s : String) : String :=
  String.join ((s.toUTF8.toList).map (fun b => formEncodeByte b.toNat))

/-- The parameter separator of `URLSearchParams.toString()`. -/
def PARAM_SEP : String := "&"

/-- Models `URLSearchParams.toString()` on an association list of parameters. -/
def urlSearchParamsToString (params : List (String × String)) : String :=
  String.intercalate PARAM_SEP
    (params.map (fun p => formUrlEncode p.1 ++ "=" ++ formUrlEncode p.2))

/-- Bytes kept verbatim by JavaScript `encodeURIComponent`: ASCII alphanumerics
and `-`, `_`, `.`, `!`, `~`, `*`, the two quotes-free parenthesis characters
and the apostrophe character (codes 39, 40, 41). -/
def isUriComponentSafeByte (b : Nat) : Bool :=
  (48 ≤ b && b ≤ 57) || (65 ≤ b && b ≤ 90) || (97 ≤ b && b ≤ 122) ||
    b == 45 || b == 95 || b == 46 || b == 33 || b == 126 || b == 42 ||
    b == 39 || b == 40 || b == 41

/-- Models JavaScript `encodeURIComponent` over the UTF-8 bytes of a string. -/
def encodeURIComponent (s : String) : String :=
  String.join ((s.toUTF8.toList).map
    (fun b =>
      if isUriComponentSafeByte b.toNat then String.mk [Char.ofNat b.toNat]
      else percentEncodeByte b.toNat))

/- ===== Errors (src/errors.ts) ===== -/

/-- The thrown error values of the SDK: `UnauthorizedError`, `APIError`
(message and `statusCode`), and plain `Error` used by the local validations. -/
inductive SdkError where
  | unauthorized (message : String)
  | api (message : String) (statusCode : Nat)
  | genericError (message : String)
deriving DecidableEq, Repr

/- ===== Data model ===== -/

/-- The mutable token cache of `Connection`: fields `accessToken` and
`tokenExpiresAt`, both initialized to `null`. -/
structure ConnState where
  accessToken : Option String
  tokenExpiresAt : Option Int
deriving DecidableEq, Repr

/-- The immutable configuration of `Connection`: resolved `baseUrl` and
`tokenEndpoint`. -/
structure ConnConfig where
  baseUrl : String
  tokenEndpoint : String
deriving DecidableEq, Repr

/-- Parsed body of a successful token-endpoint response (`TokenResponse`):
`access_token` and `expires_in`. -/
structure TokenData where
  access_token : String
  expires_in : Int
deriving DecidableEq, Repr

/-- Oracle for one POST to the token endpoint: HTTP `status`, the
`response.text()` used for error reporting, and the parsed `response.json()`
fields used when the status is successful. -/
structure TokenEndpointReply where
  status : Nat
  bodyText : String
  access_token : String
  expires_in : Int
deriving DecidableEq, Repr

/-- Oracle for one fetch of an API endpoint: HTTP `status`, the raw body
(read by `response.text()` or parsed by `response.json()`), and the value of
the content-length header when present. -/
structure ApiReply where
  status : Nat
  body : String
  contentLength : Option String
deriving DecidableEq, Repr

/-- `Response.ok` of the fetch API: status in the range 200..299. -/
def fetchOk (status : Nat) : Bool :=
  200 ≤ status && status < 300

/-- `CreateCredentialsRequest`. -/
structure CreateCredentialsRequest where
  partyId : String
  providers : List String
deriving DecidableEq, Repr

/-- `GenerateVerificationLinkRequest`. -/
structure GenerateVerificationLinkRequest where
  contractId : String
deriving DecidableEq, Repr

/-- `BatchGenerateVerificationLinkRequest`. -/
structure BatchGenerateVerificationLinkRequest where
  requests : List GenerateVerificationLinkRequest
deriving DecidableEq, Repr

/-- `GetCredentialsOptions` (optional pagination parameters). -/
structure GetCredentialsOptions where
  offset : Option Int
  limit : Option Int
deriving DecidableEq, Repr

/-- `ResolveCredentialsOptions` (optional `q` and `partyId`). -/
structure ResolveCredentialsOptions where
  q : Option String
  partyId : Option String
deriving DecidableEq, Repr

/-- Symbolic `JSON.stringify` of the request bodies the SDK sends. -/
inductive ReqBody where
  | jsonOfCreate (r : CreateCredentialsRequest)
  | jsonOfLink (r : GenerateVerificationLinkRequest)
  | jsonOfBatch (r : BatchGenerateVerificationLinkRequest)
deriving DecidableEq, Repr

/-- Observable network events, in program order: an `ensureToken` entry
(`getValidToken` of the spec), a POST to the token endpoint, the clearing of
the cached token on the 401/403 path, and a fetch of an API url carrying the
method, the Authorization header value when one is attached, and the body. -/
inductive Ev where
  | ensure
  | tokenFetch
  | invalidate
  | apiFetch (url : String) (method : String) (authHeader : Option String) (body : Option ReqBody)
deriving DecidableEq, Repr

/-- Whether an event is a fetch of an API endpoint. -/
def Ev.isApiFetch : Ev → Bool
  | .apiFetch _ _ _ _ => true
  | _ => false

/-- The Authorization header attached by an event, when any. -/
def Ev.authHeaderOf : Ev → Option String
  | .apiFetch _ _ a _ => a
  | _ => none

/-- Result of a successful authenticated request: the `empty-object` result
returned for bodyless responses, or the parsed JSON of the given raw body. -/
inductive JsonResult where
  | empty
  | json (body : String)
deriving DecidableEq, Repr

/-- The subset of `RequestInit` the SDK passes to `request`: HTTP method and
optional body (no call site passes extra headers). -/
structure ReqOptions where
  method : String
  body : Option ReqBody
deriving DecidableEq, Repr

/-- Oracle environment for one authenticated `request` call: the `Date.now()`
readings of the (at most two) `ensureToken` runs, the replies of the (at most
two) token-endpoint exchanges, and the replies of the initial API fetch and
of the single retry. -/
structure Env where
  now1 : Int
  nowSet1 : Int
  tokenReply1 : TokenEndpointReply
  now2 : Int
  nowSet2 : Int
  tokenReply2 : TokenEndpointReply
  apiReply1 : ApiReply
  apiReply2 : ApiReply
deriving DecidableEq, Repr

/- ===== Connection construction (src/connection.ts constructor) ===== -/

/-- JavaScript `x || y` on an optional string: the default is used when the
value is absent or the empty string. -/
def jsOr (v : Option String) (dflt : String) : String :=
  match v with
  | some s => if s == "" then dflt else s
  | none => dflt

/-- `resolveBaseUrl`: devnet/dev map to the devnet url, mainnet/main and any
unrecognized value map to the mainnet url. -/
def resolveBaseUrl (network : String) : String :=
  if network == "devnet" || network == "dev" then BASE_URL_DEVNET
  else if network == "mainnet" || network == "main" then BASE_URL_MAINNET
  else BASE_URL_MAINNET

/-- `resolveTokenEndpoint`: same network dispatch as `resolveBaseUrl`. -/
def resolveTokenEndpoint (network : String) : String :=
  if network == "devnet" || network == "dev" then TOKEN_ENDPOINT_DEVNET
  else if network == "mainnet" || network == "main" then TOKEN_ENDPOINT_MAINNET
  else TOKEN_ENDPOINT_MAINNET

/-- The `Connection` constructor: resolves `baseUrl` and `tokenEndpoint` from
the network unless overridden, and initializes both token-cache fields to
`null`. -/
def connectionInit (network baseUrl tokenEndpoint : Option String) :
    ConnConfig × ConnState :=
  let netw := jsOr network DEFAULT_NETWORK
  let bu := jsOr baseUrl (resolveBaseUrl netw)
  let te := jsOr tokenEndpoint (resolveTokenEndpoint netw)
  (⟨bu, te⟩, ⟨none, none⟩)

/- ===== Token lifecycle (ensureToken / requestToken) ===== -/

/-- The cached-token validity test of `ensureToken` (lines 118-122 of
`src/connection.ts`): `accessToken` truthy, `tokenExpiresAt` truthy, and
`Date.now() < tokenExpiresAt - TOKEN.BUFFER_TIME_MS`. -/
def tokenIsValid (s : ConnState) (now : Int) : Bool :=
  match s.accessToken, s.tokenExpiresAt with
  | some tok, some exp =>
      !(tok == "") && !(exp == 0) && decide (now < exp - BUFFER_TIME_MS)
  | _, _ => false

/-- `requestToken`: classification of one token-endpoint exchange. A 401/403
status throws `UnauthorizedError`; any other non-success status throws
`APIError` with the obtain-token message and the response text; a success
returns the parsed token data. (The single POST it performs is recorded by
the caller `ensureToken` as one `tokenFetch` event.) -/
def requestToken (reply : TokenEndpointReply) : Except SdkError TokenData :=
  if !(fetchOk reply.status) then
    if reply.status == 401 || reply.status == 403 then
      .error (.unauthorized INVALID_CLIENT_CREDENTIALS)
    else
      .error (.api (FAILED_TO_OBTAIN_TOKEN ++ ": " ++ reply.bodyText) reply.status)
  else
    .ok { access_token := reply.access_token, expires_in := reply.expires_in }

/-- `ensureToken` (`getValidToken` of the spec): return the cached token
unchanged when it passes `tokenIsValid`, otherwise perform one token exchange
and store `access_token` together with
`tokenExpiresAt = Date.now() + (expires_in - 60) * 1000`. -/
def ensureToken (s : ConnState) (nowCheck nowSet : Int) (reply : TokenEndpointReply) :
    Except SdkError String × ConnState × List Ev :=
  if tokenIsValid s nowCheck then
    (.ok (s.accessToken.getD EMPTY), s, [Ev.ensure])
  else
    match requestToken reply with
    | .error e => (.error e, s, [Ev.ensure, Ev.tokenFetch])
    | .ok td =>
        let s2 : ConnState :=
          ⟨some td.access_token, some (nowSet + (td.expires_in - 60) * 1000)⟩
        (.ok td.access_token, s2, [Ev.ensure, Ev.tokenFetch])

/- ===== Authenticated request dispatcher (src/connection.ts, request) ===== -/

/-- Classification of the retry response inside `request` (lines 204-218 of
`src/connection.ts`): a 401/403 retry throws `UnauthorizedError`, any other
non-success retry throws `APIError` with the status and text, and a
successful retry is parsed by `retryResponse.json()` unconditionally — with
no empty-body special case. -/
def retryResult (r2 : ApiReply) : Except SdkError JsonResult :=
  if !(fetchOk r2.status) then
    if r2.status == 401 || r2.status == 403 then
      .error (.unauthorized AUTHENTICATION_FAILED)
    else
      .error (.api (API_REQUEST_FAILED ++ ": " ++ r2.body) r2.status)
  else
    .ok (.json r2.body)

/-- Result of a successful initial response inside `request` (lines 228-236 of
`src/connection.ts`): the empty-object result when the status is 204 or the
content-length header is the zero string, otherwise the parsed body. -/
def successResult (r1 : ApiReply) : JsonResult :=
  if r1.status == 204 || r1.contentLength == some ZERO_LENGTH then .empty
  else .json r1.body

/-- `request`: obtain a token, fetch the endpoint with Content-Type and Bearer
Authorization headers; on a 2xx response return `successResult`; on a 401/403
response clear the token cache, re-acquire a token, retry the identical
request once and classify it by `retryResult`; on any other non-success
response throw `APIError` with the status and the response text. -/
def request (cfg : ConnConfig) (s : ConnState) (env : Env) (endpoint : String)
    (opts : ReqOptions) : Except SdkError JsonResult × ConnState × List Ev :=
  let et := ensureToken s env.now1 env.nowSet1 env.tokenReply1
  let s1 := et.2.1
  let ev1 := et.2.2
  match et.1 with
  | .error e => (.error e, s1, ev1)
  | .ok token =>
    let url := if endpoint.startsWith HTTP_SCHEME then endpoint
               else cfg.baseUrl ++ endpoint
    let fetch1 := Ev.apiFetch url opts.method (some (BEARER ++ token)) opts.body
    let r1 := env.apiReply1
    if !(fetchOk r1.status) then
      if r1.status == 401 || r1.status == 403 then
        let sInv : ConnState := ⟨none, none⟩
        let et2 := ensureToken sInv env.now2 env.nowSet2 env.tokenReply2
        let s3 := et2.2.1
        let ev2 := et2.2.2
        match et2.1 with
        | .error e => (.error e, s3, ev1 ++ [fetch1, Ev.invalidate] ++ ev2)
        | .ok newToken =>
          let fetch2 :=
            Ev.apiFetch url opts.method (some (BEARER ++ newToken)) opts.body
          (retryResult env.apiReply2, s3,
            ev1 ++ [fetch1, Ev.invalidate] ++ ev2 ++ [fetch2])
      else
        (.error (.api (API_REQUEST_FAILED ++ ": " ++ r1.body) r1.status),
          s1, ev1 ++ [fetch1])
    else
      (.ok (successResult r1), s1, ev1 ++ [fetch1])

/- ===== Public operation catalog ===== -/

/-- `createCredentialsRequest`: POST the request body to the
credentials-access-request endpoint; the awaited result is discarded. -/
def createCredentialsRequest (cfg : ConnConfig) (s : ConnState) (env : Env)
    (req : CreateCredentialsRequest) : Except SdkError Unit × ConnState × List Ev :=
  let out := request cfg s env CREDENTIALS_ACCESS_REQUEST
    ⟨METHOD_POST, some (.jsonOfCreate req)⟩
  (out.1.map (fun _ => ()), out.2.1, out.2.2)

/-- `getCredentials`: GET the credentials endpoint with optional `offset` and
`limit` query parameters, appended only when the serialized query string is
nonempty. -/
def getCredentials (cfg : ConnConfig) (s : ConnState) (env : Env)
    (options : GetCredentialsOptions) :
    Except SdkError JsonResult × ConnState × List Ev :=
  let params :=
    (match options.offset with
     | some v => [("offset", toString v)]
     | none => []) ++
    (match options.limit with
     | some v => [("limit", toString v)]
     | none => [])
  let queryString := urlSearchParamsToString params
  let endpoint :=
    CREDENTIALS ++ (if !(queryString == "") then "?" ++ queryString else "")
  request cfg s env endpoint ⟨METHOD_GET, none⟩

/-- `getCredentialsByPartyId`: GET the by-party endpoint with the
URI-component-encoded party id as a path segment. -/
def getCredentialsByPartyId (cfg : ConnConfig) (s : ConnState) (env : Env)
    (partyId : String) : Except SdkError JsonResult × ConnState × List Ev :=
  request cfg s env (CREDENTIALS_BY_PARTY ++ "/" ++ encodeURIComponent partyId)
    ⟨METHOD_GET, none⟩

/-- `generateVerificationLink`: POST the request body to the
generate-link endpoint. -/
def generateVerificationLink (cfg : ConnConfig) (s : ConnState) (env : Env)
    (req : GenerateVerificationLinkRequest) :
    Except SdkError JsonResult × ConnState × List Ev :=
  request cfg s env VERIFICATION_GENERATE_LINK ⟨METHOD_POST, some (.jsonOfLink req)⟩

/-- `generateVerificationLinksBatch`: reject request lists longer than
`BATCH.MAX_REQUESTS` with a local `Error` before any network activity,
otherwise POST the body to the batch endpoint. -/
def generateVerificationLinksBatch (cfg : ConnConfig) (s : ConnState) (env : Env)
    (req : BatchGenerateVerificationLinkRequest) :
    Except SdkError JsonResult × ConnState × List Ev :=
  if req.requests.length > MAX_REQUESTS then
    (.error (.genericError MAX_BATCH_REQUESTS), s, [])
  else
    request cfg s env VERIFICATION_GENERATE_LINKS_BATCH
      ⟨METHOD_POST, some (.jsonOfBatch req)⟩

/-- `checkVerificationStatus`: one bare fetch of the verification-check url
with no Authorization header and no interaction with the token cache; a 404
status is classified as the token-not-found `APIError`, any other non-success
status as a generic check-failure `APIError` with status and text. -/
def checkVerificationStatus (cfg : ConnConfig) (s : ConnState) (reply : ApiReply)
    (token : String) : Except SdkError JsonResult × ConnState × List Ev :=
  let url := cfg.baseUrl ++ VERIFICATION_CHECK ++ "/" ++ encodeURIComponent token
  let ev := [Ev.apiFetch url METHOD_GET none none]
  if !(fetchOk reply.status) then
    if reply.status == 404 then
      (.error (.api TOKEN_NOT_FOUND 404), s, ev)
    else
      (.error (.api (FAILED_TO_CHECK_VERIFICATION ++ ": " ++ reply.body) reply.status),
        s, ev)
  else
    (.ok (.json reply.body), s, ev)

/-- `getHumanScore`: GET the human-score endpoint for the encoded party id. -/
def getHumanScore (cfg : ConnConfig) (s : ConnState) (env : Env)
    (partyId : String) : Except SdkError JsonResult × ConnState × List Ev :=
  request cfg s env (HUMAN_SCORE ++ "/" ++ encodeURIComponent partyId)
    ⟨METHOD_GET, none⟩

/-- Result of the resolve operations: the literal empty credential list
returned locally for blank inputs, or the parsed response of the API call. -/
inductive ResolveOutcome where
  | emptyCredentialList
  | fromApi (j : JsonResult)
deriving DecidableEq, Repr

/-- Repackaging of a `request` output as a resolve-operation output. -/
def liftResolve (out : Except SdkError JsonResult × ConnState × List Ev) :
    Except SdkError ResolveOutcome × ConnState × List Ev :=
  (out.1.map .fromApi, out.2.1, out.2.2)

/-- Models JavaScript `String.prototype.trim`: strips leading and trailing
whitespace characters. -/
def jsTrim (s : String) : String :=
  String.mk
    (((s.data.dropWhile Char.isWhitespace).reverse.dropWhile
        Char.isWhitespace).reverse)

/-- `resolve` (forward lookup): return the empty credential list for an empty
or whitespace-only query without any network call, otherwise GET the resolve
endpoint with the trimmed query as the `q` parameter. -/
def resolve (cfg : ConnConfig) (s : ConnState) (env : Env) (query : String) :
    Except SdkError ResolveOutcome × ConnState × List Ev :=
  if query == "" || jsTrim query == "" then
    (.ok .emptyCredentialList, s, [])
  else
    let endpoint :=
      RESOLVE_CREDENTIALS ++ "?" ++ urlSearchParamsToString [("q", jsTrim query)]
    liftResolve (request cfg s env endpoint ⟨METHOD_GET, none⟩)

/-- `reverseResolve` (reverse lookup): same blank-input short-circuit as
`resolve`, otherwise GET the resolve endpoint with the trimmed party id as the
`partyId` parameter. -/
def reverseResolve (cfg : ConnConfig) (s : ConnState) (env : Env) (partyId : String) :
    Except SdkError ResolveOutcome × ConnState × List Ev :=
  if partyId == "" || jsTrim partyId == "" then
    (.ok .emptyCredentialList, s, [])
  else
    let endpoint :=
      RESOLVE_CREDENTIALS ++ "?" ++
        urlSearchParamsToString [("partyId", jsTrim partyId)]
    liftResolve (request cfg s env endpoint ⟨METHOD_GET, none⟩)

/-- JavaScript truthiness of an optional string: present and nonempty. -/
def truthy : Option String → Bool
  | none => false
  | some s => !(s == "")

/-- `resolveCredentials`: fail locally when neither or both of `q`/`partyId`
are truthy, dispatch to `reverseResolve` when `partyId` is truthy, else to
`resolve` with the non-null-asserted `q`. -/
def resolveCredentials (cfg : ConnConfig) (s : ConnState) (env : Env)
    (options : ResolveCredentialsOptions) :
    Except SdkError ResolveOutcome × ConnState × List Ev :=
  if !(truthy options.q) && !(truthy options.partyId) then
    (.error (.genericError EITHER_Q_OR_PARTYID), s, [])
  else if truthy options.q && truthy options.partyId then
    (.error (.genericError CANNOT_PROVIDE_BOTH), s, [])
  else if truthy options.partyId then
    reverseResolve cfg s env (options.partyId.getD EMPTY)
  else
    resolve cfg s env (options.q.getD EMPTY)

/- ===== Event counting helpers ===== -/

/-- Whether an event is an `ensureToken` entry. -/
def Ev.isEnsure : Ev → Bool
  | .ensure => true
  | _ => false

/-- Whether an event is a POST to the token endpoint. -/
def Ev.isTokenFetch : Ev → Bool
  | .tokenFetch => true
  | _ => false

/-- Whether an event is a clearing of the token cache. -/
def Ev.isInvalidate : Ev → Bool
  | .invalidate => true
  | _ => false

/-- Number of events of a trace satisfying a predicate. -/
def countEv (p : Ev → Bool) (l : List Ev) : Nat :=
  (l.filter p).length

/- ===== The token-cache invariant ===== -/

/-- The cached token and its expiry are present or absent together. -/
def CacheInv (s : ConnState) : Prop :=
  s.accessToken = none ↔ s.tokenExpiresAt = none

/- ===== Concrete fixtures for witnesses and counterexamples ===== -/

/-- The freshly constructed token cache (both fields `null`). -/
def st00 : ConnState := { accessToken := none, tokenExpiresAt := none }

/-- A mainnet configuration. -/
def cfg0 : ConnConfig :=
  { baseUrl := BASE_URL_MAINNET, tokenEndpoint := TOKEN_ENDPOINT_MAINNET }

/-- A successful token-endpoint reply: one-hour token. -/
def tr200 : TokenEndpointReply :=
  { status := 200, bodyText := EMPTY, access_token := "fresh-token", expires_in := 3600 }

/-- A token-endpoint reply rejecting the credentials. -/
def tr401 : TokenEndpointReply :=
  { status := 401, bodyText := "denied", access_token := EMPTY, expires_in := 0 }

/-- A token-endpoint reply failing with a server error. -/
def tr500 : TokenEndpointReply :=
  { status := 500, bodyText := "boom", access_token := EMPTY, expires_in := 0 }

/-- A successful API reply with a body. -/
def ar200 : ApiReply := { status := 200, body := "payload", contentLength := none }

/-- A bodyless 204 API reply. -/
def ar204 : ApiReply := { status := 204, body := EMPTY, contentLength := some ZERO_LENGTH }

/-- A 401 API reply. -/
def ar401 : ApiReply := { status := 401, body := "expired", contentLength := none }

/-- A 403 API reply. -/
def ar403 : ApiReply := { status := 403, body := "forbidden", contentLength := none }

/-- A 404 API reply. -/
def ar404 : ApiReply := { status := 404, body := "missing", contentLength := none }

/-- A 500 API reply. -/
def ar500 : ApiReply := { status := 500, body := "server error", contentLength := none }

/-- GET options without a body. -/
def opts0 : ReqOptions := { method := METHOD_GET, body := none }

/-- Environment where everything succeeds on the first try. -/
def env0 : Env :=
  { now1 := 0, nowSet1 := 0, tokenReply1 := tr200,
    now2 := 0, nowSet2 := 0, tokenReply2 := tr200,
    apiReply1 := ar200, apiReply2 := ar200 }

/-- Environment where the first API reply is 401 and the retry succeeds. -/
def envRetryOk : Env :=
  { now1 := 0, nowSet1 := 0, tokenReply1 := tr200,
    now2 := 0, nowSet2 := 0, tokenReply2 := tr200,
    apiReply1 := ar401, apiReply2 := ar200 }

/-- Environment where the first API reply is 401 and the retry succeeds with a
bodyless 204 reply. -/
def envRetry204 : Env :=
  { now1 := 0, nowSet1 := 0, tokenReply1 := tr200,
    now2 := 0, nowSet2 := 0, tokenReply2 := tr200,
    apiReply1 := ar401, apiReply2 := ar204 }

/-- Environment where both the first API reply and the retry are auth
failures. -/
def envRetry403 : Env :=
  { now1 := 0, nowSet1 := 0, tokenReply1 := tr200,
    now2 := 0, nowSet2 := 0, tokenReply2 := tr200,
    apiReply1 := ar401, apiReply2 := ar403 }

/-- Environment where the first API reply is a 500 server error. -/
def env500 : Env :=
  { now1 := 0, nowSet1 := 0, tokenReply1 := tr200,
    now2 := 0, nowSet2 := 0, tokenReply2 := tr200,
    apiReply1 := ar500, apiReply2 := ar200 }

/-- A whitespace-only input string. -/
def BLANK : String := " "

/-- A concrete nonempty party id. -/
def PARTY1 : String := "party::user1"

/-- A concrete nonempty query. -/
def QUERY1 : String := "user@example.com"

/-- A batch request of exactly 100 items. -/
def req100 : BatchGenerateVerificationLinkRequest :=
  { requests := List.replicate 100 { contractId := "c1" } }

/-- A batch request of 101 items. -/
def req101 : BatchGenerateVerificationLinkRequest :=
  { requests := List.replicate 101 { contractId := "c1" } }

/- ===== Helper lemmas ===== -/

/-- The trace of one `ensureToken` run: an entry event, followed by one token
POST exactly when the cached token was not reused. -/
theorem ensureToken_trace (s : ConnState) (nowC nowS : Int) (r : TokenEndpointReply) :
    (ensureToken s nowC nowS r).2.2 = [Ev.ensure] ∨
      (ensureToken s nowC nowS r).2.2 = [Ev.ensure, Ev.tokenFetch] := by
  unfold ensureToken
  split
  · exact Or.inl rfl
  · split
    · exact Or.inr rfl
    · exact Or.inr rfl

/-- `ensureToken` on a valid cache returns it unchanged with no token POST. -/
theorem ensureToken_valid (s : ConnState) (nowC nowS : Int) (r : TokenEndpointReply)
    (h : tokenIsValid s nowC = true) :
    ensureToken s nowC nowS r = (.ok (s.accessToken.getD EMPTY), s, [Ev.ensure]) := by
  simp [ensureToken, h]

/-- `ensureToken` on an empty cache with a successful exchange stores the new
token and its buffered expiry. -/
theorem ensureToken_fresh_ok (nowC nowS : Int) (r : TokenEndpointReply)
    (hok : fetchOk r.status = true) :
    ensureToken { accessToken := none, tokenExpiresAt := none } nowC nowS r =
      (.ok r.access_token,
        { accessToken := some r.access_token,
          tokenExpiresAt := some (nowS + (r.expires_in - 60) * 1000) },
        [Ev.ensure, Ev.tokenFetch]) := by
  simp [ensureToken, tokenIsValid, requestToken, hok]

/-- `ensureToken` preserves the both-or-neither shape of the cache. -/
theorem CacheInv_ensureToken (s : ConnState) (h : CacheInv s) (nowC nowS : Int)
    (r : TokenEndpointReply) : CacheInv (ensureToken s nowC nowS r).2.1 := by
  unfold ensureToken
  split
  · exact h
  · split
    · exact h
    · exact ⟨fun hc => by simp_all, fun hc => by simp_all⟩

/-- The empty cache trivially has both fields absent together. -/
theorem CacheInv_st00 : CacheInv st00 :=
  ⟨fun _ => rfl, fun _ => rfl⟩

/-- The authenticated dispatcher preserves the both-or-neither shape of the
cache on every path. -/
theorem CacheInv_request (cfg : ConnConfig) (s : ConnState) (h : CacheInv s)
    (env : Env) (endpoint : String) (opts : ReqOptions) :
    CacheInv (request cfg s env endpoint opts).2.1 := by
  have h1 := CacheInv_ensureToken s h env.now1 env.nowSet1 env.tokenReply1
  have h3 := CacheInv_ensureToken ⟨none, none⟩ ⟨fun _ => rfl, fun _ => rfl⟩
    env.now2 env.nowSet2 env.tokenReply2
  rcases he : ensureToken s env.now1 env.nowSet1 env.tokenReply1 with ⟨res, s1, ev1⟩
  rw [he] at h1
  rcases he2 : ensureToken ⟨none, none⟩ env.now2 env.nowSet2 env.tokenReply2 with ⟨res2, s3, ev2⟩
  rw [he2] at h3
  rcases res with e | tok <;> rcases res2 with e2 | tok2 <;>
    simp only [request, he, he2] <;> (try split_ifs) <;>
    first
      | exact h1
      | exact h3

/-- A failed token exchange with an auth status maps to `UnauthorizedError`. -/
theorem requestToken_err_auth (r : TokenEndpointReply)
    (h1 : r.status = 401 ∨ r.status = 403) :
    requestToken r = .error (.unauthorized INVALID_CLIENT_CREDENTIALS) := by
  rcases h1 with h1 | h1 <;> simp [requestToken, h1] <;> decide

/-- A failed token exchange with a non-auth status maps to `APIError` carrying
the status and body text. -/
theorem requestToken_err_other (r : TokenEndpointReply)
    (hk : fetchOk r.status = false) (h1 : ¬ r.status = 401) (h2 : ¬ r.status = 403) :
    requestToken r =
      .error (.api (FAILED_TO_OBTAIN_TOKEN ++ ": " ++ r.bodyText) r.status) := by
  simp [requestToken, hk, beq_iff_eq, h1, h2]

/-- When the cache is invalid and the exchange fails, `ensureToken` propagates
the error, leaves the cache unchanged, and performed exactly one token POST. -/
theorem ensureToken_of_requestToken_error (s : ConnState) (nowC nowS : Int)
    (r : TokenEndpointReply) (e : SdkError) (hv : tokenIsValid s nowC = false)
    (hre : requestToken r = .error e) :
    ensureToken s nowC nowS r = (.error e, s, [Ev.ensure, Ev.tokenFetch]) := by
  simp [ensureToken, hv, hre]

/-- Claim C1 (counterexample): with a token obtained at time 0 advertising
`expires_in = 3600`, the spec-level effective expiry is
`0 + (3600 - 60) * 1000 = 3540000`; at `now = 3500000`, strictly before it,
the claim predicts reuse with no token-endpoint contact, yet `ensureToken`
posts to the token endpoint, because the validity check subtracts
`BUFFER_TIME_MS` a second time from the already-buffered stored expiry. -/
theorem ensureToken_single_buffer_counterexample :
    (ensureToken st00 0 0 tr200).2.1.tokenExpiresAt =
      some (0 + (tr200.expires_in - 60) * 1000) ∧
    (3500000 : Int) < 0 + (tr200.expires_in - 60) * 1000 ∧
    Ev.tokenFetch ∈
      (ensureToken (ensureToken st00 0 0 tr200).2.1 3500000 3500000 tr200).2.2 := by
  decide

/-- Claim C1 (amended): after a fresh acquisition at time `nowSet` of a
nonempty token with advertised lifetime `expires_in`, the stored expiry is
`nowSet + (expires_in - 60) * 1000`, and a later `ensureToken` at time `now`
reuses the cached token without contacting the token endpoint iff
`now < storedExpiry - BUFFER_TIME_MS`: the 60-second buffer is applied twice,
once when the expiry is stored and once in the validity check. -/
theorem ensureToken_reuse_iff_double_buffer
    (s : ConnState) (nowAcq nowSet now nowSet2 : Int) (r r2 : TokenEndpointReply)
    (hv : tokenIsValid s nowAcq = false)
    (hok : fetchOk r.status = true)
    (hat : ¬ r.access_token = "")
    (hexp : ¬ nowSet + (r.expires_in - 60) * 1000 = 0) :
    (ensureToken s nowAcq nowSet r).2.1.tokenExpiresAt =
      some (nowSet + (r.expires_in - 60) * 1000) ∧
    (Ev.tokenFetch ∉
        (ensureToken (ensureToken s nowAcq nowSet r).2.1 now nowSet2 r2).2.2 ↔
      now < nowSet + (r.expires_in - 60) * 1000 - BUFFER_TIME_MS) := by
  have hs1 : (ensureToken s nowAcq nowSet r).2.1 =
      { accessToken := some r.access_token,
        tokenExpiresAt := some (nowSet + (r.expires_in - 60) * 1000) } := by
    simp [ensureToken, hv, requestToken, hok]
  refine ⟨by rw [hs1], ?_⟩
  rw [hs1]
  by_cases hlt : now < nowSet + (r.expires_in - 60) * 1000 - BUFFER_TIME_MS
  · have hvalid : tokenIsValid
        { accessToken := some r.access_token,
          tokenExpiresAt := some (nowSet + (r.expires_in - 60) * 1000) } now = true := by
      simp [tokenIsValid, beq_iff_eq, hat, hexp, hlt]
    simp [ensureToken, hvalid, hlt]
  · have hvalid : tokenIsValid
        { accessToken := some r.access_token,
          tokenExpiresAt := some (nowSet + (r.expires_in - 60) * 1000) } now = false := by
      simp [tokenIsValid, beq_iff_eq, hat, hexp, hlt]
    rcases h2 : requestToken r2 with e2 | td2 <;>
      simp [ensureToken, hvalid, h2, hlt]

/-- Claim C1 (witness for the amended theorem): concrete acquisition at time 0
followed by a check at time 100. -/
theorem ensureToken_reuse_iff_double_buffer_witness :
    (ensureToken st00 0 0 tr200).2.1.tokenExpiresAt =
      some (0 + (tr200.expires_in - 60) * 1000) ∧
    (Ev.tokenFetch ∉
        (ensureToken (ensureToken st00 0 0 tr200).2.1 100 0 tr200).2.2 ↔
      (100 : Int) < 0 + (tr200.expires_in - 60) * 1000 - BUFFER_TIME_MS) :=
  ensureToken_reuse_iff_double_buffer st00 0 0 100 0 tr200 tr200
    (by decide) (by decide) (by decide) (by decide)

/-- Claim C5 (confirmed): a token-acquisition exchange performs exactly one
POST with no internal retry and leaves the cache unchanged on failure; a
401/403 status fails with `UnauthorizedError`, any other non-success status
fails with `APIError` carrying the status code and the response body text, and
the failure is returned to the caller of `ensureToken`. -/
theorem requestToken_failure_classification
    (s : ConnState) (nowC nowS : Int) (r : TokenEndpointReply)
    (hv : tokenIsValid s nowC = false)
    (hk : fetchOk r.status = false) :
    (ensureToken s nowC nowS r).2.2 = [Ev.ensure, Ev.tokenFetch] ∧
    (ensureToken s nowC nowS r).2.1 = s ∧
    ((r.status = 401 ∨ r.status = 403) →
      (ensureToken s nowC nowS r).1 =
        .error (.unauthorized INVALID_CLIENT_CREDENTIALS)) ∧
    (¬ r.status = 401 → ¬ r.status = 403 →
      (ensureToken s nowC nowS r).1 =
        .error (.api (FAILED_TO_OBTAIN_TOKEN ++ ": " ++ r.bodyText) r.status)) := by
  have hre : ∃ e, requestToken r = Except.error e := by
    by_cases h1 : r.status = 401
    · exact ⟨_, requestToken_err_auth r (Or.inl h1)⟩
    · by_cases h2 : r.status = 403
      · exact ⟨_, requestToken_err_auth r (Or.inr h2)⟩
      · exact ⟨_, requestToken_err_other r hk h1 h2⟩
  rcases hre with ⟨e, hre⟩
  have hE := ensureToken_of_requestToken_error s nowC nowS r e hv hre
  refine ⟨by rw [hE], by rw [hE], ?_, ?_⟩
  · intro hd
    rw [ensureToken_of_requestToken_error s nowC nowS r _ hv
      (requestToken_err_auth r hd)]
  · intro h1 h2
    rw [ensureToken_of_requestToken_error s nowC nowS r _ hv
      (requestToken_err_other r hk h1 h2)]

/-- Claim C5 (witness): concrete 401 acquisition failure on an empty cache. -/
theorem requestToken_failure_classification_witness :
    (ensureToken st00 0 0 tr401).2.2 = [Ev.ensure, Ev.tokenFetch] ∧
    (ensureToken st00 0 0 tr401).2.1 = st00 ∧
    ((tr401.status = 401 ∨ tr401.status = 403) →
      (ensureToken st00 0 0 tr401).1 =
        .error (.unauthorized INVALID_CLIENT_CREDENTIALS)) ∧
    (¬ tr401.status = 401 → ¬ tr401.status = 403 →
      (ensureToken st00 0 0 tr401).1 =
        .error (.api (FAILED_TO_OBTAIN_TOKEN ++ ": " ++ tr401.bodyText) tr401.status)) :=
  requestToken_failure_classification st00 0 0 tr401 (by decide) (by decide)


/-- On the 401/403 path with a successful re-acquisition, `request` reduces to
the retry classification, the freshly stored cache, and the trace
first-fetch / invalidation / re-acquisition / retry-fetch. -/
theorem request_auth_path_eq
    (cfg : ConnConfig) (s : ConnState) (env : Env) (endpoint : String)
    (opts : ReqOptions) (tok : String) (s1 : ConnState) (ev1 : List Ev)
    (he : ensureToken s env.now1 env.nowSet1 env.tokenReply1 = (Except.ok tok, s1, ev1))
    (hko1 : fetchOk env.apiReply1.status = false)
    (hb1 : (env.apiReply1.status == 401 || env.apiReply1.status == 403) = true)
    (h2 : fetchOk env.tokenReply2.status = true) :
    request cfg s env endpoint opts =
      (retryResult env.apiReply2,
       { accessToken := some env.tokenReply2.access_token,
         tokenExpiresAt :=
           some (env.nowSet2 + (env.tokenReply2.expires_in - 60) * 1000) },
       ev1 ++
         [Ev.apiFetch
            (if endpoint.startsWith HTTP_SCHEME then endpoint
             else cfg.baseUrl ++ endpoint)
            opts.method (some (BEARER ++ tok)) opts.body,
          Ev.invalidate] ++
         [Ev.ensure, Ev.tokenFetch] ++
         [Ev.apiFetch
            (if endpoint.startsWith HTTP_SCHEME then endpoint
             else cfg.baseUrl ++ endpoint)
            opts.method (some (BEARER ++ env.tokenReply2.access_token)) opts.body]) := by
  have hfresh := ensureToken_fresh_ok env.now2 env.nowSet2 env.tokenReply2 h2
  simp [request, he, hko1, hb1, hfresh]

/-- Claim C2 (confirmed): when the first response of an authenticated request
is 401 or 403, the dispatcher clears the cache once, consults token
acquisition a second time, and re-issues the request exactly once: the trace
holds exactly one invalidation, exactly two `ensureToken` entries and exactly
two API fetches; a successful retry yields the parsed success with no error,
and a 401/403 retry yields exactly the single `UnauthorizedError`. -/
theorem request_auth_retry
    (cfg : ConnConfig) (s : ConnState) (env : Env) (endpoint : String)
    (opts : ReqOptions) (tok : String)
    (h1 : (ensureToken s env.now1 env.nowSet1 env.tokenReply1).1 = .ok tok)
    (ha : env.apiReply1.status = 401 ∨ env.apiReply1.status = 403)
    (h2 : fetchOk env.tokenReply2.status = true) :
    countEv Ev.isInvalidate (request cfg s env endpoint opts).2.2 = 1 ∧
    countEv Ev.isEnsure (request cfg s env endpoint opts).2.2 = 2 ∧
    countEv Ev.isApiFetch (request cfg s env endpoint opts).2.2 = 2 ∧
    (fetchOk env.apiReply2.status = true →
      (request cfg s env endpoint opts).1 = .ok (.json env.apiReply2.body)) ∧
    ((env.apiReply2.status = 401 ∨ env.apiReply2.status = 403) →
      (request cfg s env endpoint opts).1 =
        .error (.unauthorized AUTHENTICATION_FAILED)) := by
  have hko1 : fetchOk env.apiReply1.status = false := by
    rcases ha with h | h <;> rw [h] <;> decide
  have hb1 : (env.apiReply1.status == 401 || env.apiReply1.status == 403) = true := by
    rcases ha with h | h <;> rw [h] <;> decide
  rcases he : ensureToken s env.now1 env.nowSet1 env.tokenReply1 with ⟨res, s1, ev1⟩
  rw [he] at h1
  have hres : res = Except.ok tok := h1
  subst hres
  have hev0 := ensureToken_trace s env.now1 env.nowSet1 env.tokenReply1
  rw [he] at hev0
  have hev1 : ev1 = [Ev.ensure] ∨ ev1 = [Ev.ensure, Ev.tokenFetch] := hev0
  have hreq := request_auth_path_eq cfg s env endpoint opts tok s1 ev1 he hko1 hb1 h2
  refine ⟨?_, ?_, ?_, ?_, ?_⟩
  · rw [hreq]
    rcases hev1 with h | h <;> subst h <;> simp [countEv, Ev.isInvalidate]
  · rw [hreq]
    rcases hev1 with h | h <;> subst h <;> simp [countEv, Ev.isEnsure]
  · rw [hreq]
    rcases hev1 with h | h <;> subst h <;> simp [countEv, Ev.isApiFetch]
  · intro hko2
    rw [hreq]
    simp [retryResult, hko2]
  · intro hd
    have hko2 : fetchOk env.apiReply2.status = false := by
      rcases hd with h | h <;> rw [h] <;> decide
    have hb2 : (env.apiReply2.status == 401 || env.apiReply2.status == 403) = true := by
      rcases hd with h | h <;> rw [h] <;> decide
    rw [hreq]
    simp [retryResult, hko2, hb2]

/-- Claim C2 (witness): concrete 401 first reply; the successful-retry and
double-401/403 conclusions are both instantiated by this environment-family
application at `envRetryOk`. -/
theorem request_auth_retry_witness :
    countEv Ev.isInvalidate (request cfg0 st00 envRetryOk CREDENTIALS opts0).2.2 = 1 ∧
    countEv Ev.isEnsure (request cfg0 st00 envRetryOk CREDENTIALS opts0).2.2 = 2 ∧
    countEv Ev.isApiFetch (request cfg0 st00 envRetryOk CREDENTIALS opts0).2.2 = 2 ∧
    (fetchOk envRetryOk.apiReply2.status = true →
      (request cfg0 st00 envRetryOk CREDENTIALS opts0).1 =
        .ok (.json envRetryOk.apiReply2.body)) ∧
    ((envRetryOk.apiReply2.status = 401 ∨ envRetryOk.apiReply2.status = 403) →
      (request cfg0 st00 envRetryOk CREDENTIALS opts0).1 =
        .error (.unauthorized AUTHENTICATION_FAILED)) :=
  request_auth_retry cfg0 st00 envRetryOk CREDENTIALS opts0
    tr200.access_token (by rfl) (by decide) (by decide)

/-- On a successful initial response, `request` reduces to `successResult`
with the post-token-check cache and a single API fetch after the token
trace. -/
theorem request_ok_path_eq
    (cfg : ConnConfig) (s : ConnState) (env : Env) (endpoint : String)
    (opts : ReqOptions) (tok : String) (s1 : ConnState) (ev1 : List Ev)
    (he : ensureToken s env.now1 env.nowSet1 env.tokenReply1 = (Except.ok tok, s1, ev1))
    (hok1 : fetchOk env.apiReply1.status = true) :
    request cfg s env endpoint opts =
      (.ok (successResult env.apiReply1), s1,
       ev1 ++
         [Ev.apiFetch
            (if endpoint.startsWith HTTP_SCHEME then endpoint
             else cfg.baseUrl ++ endpoint)
            opts.method (some (BEARER ++ tok)) opts.body]) := by
  simp [request, he, hok1]

/-- On a non-success, non-auth initial response, `request` reduces to the
immediate `APIError` with the post-token-check cache and a single API fetch
after the token trace. -/
theorem request_plain_err_path_eq
    (cfg : ConnConfig) (s : ConnState) (env : Env) (endpoint : String)
    (opts : ReqOptions) (tok : String) (s1 : ConnState) (ev1 : List Ev)
    (he : ensureToken s env.now1 env.nowSet1 env.tokenReply1 = (Except.ok tok, s1, ev1))
    (hko1 : fetchOk env.apiReply1.status = false)
    (hb1 : (env.apiReply1.status == 401 || env.apiReply1.status == 403) = false) :
    request cfg s env endpoint opts =
      (.error (.api (API_REQUEST_FAILED ++ ": " ++ env.apiReply1.body)
          env.apiReply1.status), s1,
       ev1 ++
         [Ev.apiFetch
            (if endpoint.startsWith HTTP_SCHEME then endpoint
             else cfg.baseUrl ++ endpoint)
            opts.method (some (BEARER ++ tok)) opts.body]) := by
  simp [request, he, hko1, hb1]

/-- Claim C3 (counterexample): at a concrete run whose first response is 401
and whose retry response is a successful, bodyless 204 with content-length
zero, the claim predicts the empty-object result; the code instead returns
the unconditional parse of the empty retry body, because the retry-success
path has no empty-body handling. -/
theorem request_retry_empty_body_counterexample :
    fetchOk envRetry204.apiReply2.status = true ∧
    envRetry204.apiReply2.status = 204 ∧
    envRetry204.apiReply2.contentLength = some ZERO_LENGTH ∧
    (request cfg0 st00 envRetry204 CREDENTIALS opts0).1 =
      Except.ok (JsonResult.json envRetry204.apiReply2.body) ∧
    ¬ (request cfg0 st00 envRetry204 CREDENTIALS opts0).1 =
        Except.ok JsonResult.empty := by
  decide

/-- Claim C3 (amended): a successful INITIAL response yields the empty-object
result exactly when its status is 204 or its content-length header is zero,
and the parsed body otherwise; the response to the single auth-triggered
retry, however, is parsed unconditionally — the empty-body special case does
not apply on the retry path. -/
theorem request_success_body_handling
    (cfg : ConnConfig) (s : ConnState) (env : Env) (endpoint : String)
    (opts : ReqOptions) (tok : String)
    (h1 : (ensureToken s env.now1 env.nowSet1 env.tokenReply1).1 = .ok tok) :
    (fetchOk env.apiReply1.status = true →
      (request cfg s env endpoint opts).1 =
        .ok (if env.apiReply1.status == 204 ||
               env.apiReply1.contentLength == some ZERO_LENGTH
             then JsonResult.empty else JsonResult.json env.apiReply1.body)) ∧
    ((env.apiReply1.status = 401 ∨ env.apiReply1.status = 403) →
      fetchOk env.tokenReply2.status = true →
      fetchOk env.apiReply2.status = true →
      (request cfg s env endpoint opts).1 = .ok (.json env.apiReply2.body)) := by
  rcases he : ensureToken s env.now1 env.nowSet1 env.tokenReply1 with ⟨res, s1, ev1⟩
  rw [he] at h1
  have hres : res = Except.ok tok := h1
  subst hres
  constructor
  · intro hok1
    rw [request_ok_path_eq cfg s env endpoint opts tok s1 ev1 he hok1]
    simp [successResult]
  · intro ha h2 hok2
    have hko1 : fetchOk env.apiReply1.status = false := by
      rcases ha with h | h <;> rw [h] <;> decide
    have hb1 : (env.apiReply1.status == 401 || env.apiReply1.status == 403) = true := by
      rcases ha with h | h <;> rw [h] <;> decide
    rw [request_auth_path_eq cfg s env endpoint opts tok s1 ev1 he hko1 hb1 h2]
    simp [retryResult, hok2]

/-- Claim C3 (witness for the amended theorem): the retry-path conclusion at
the 401-then-204 environment. -/
theorem request_success_body_handling_witness :
    (fetchOk envRetry204.apiReply1.status = true →
      (request cfg0 st00 envRetry204 CREDENTIALS opts0).1 =
        .ok (if envRetry204.apiReply1.status == 204 ||
               envRetry204.apiReply1.contentLength == some ZERO_LENGTH
             then JsonResult.empty else JsonResult.json envRetry204.apiReply1.body)) ∧
    ((envRetry204.apiReply1.status = 401 ∨ envRetry204.apiReply1.status = 403) →
      fetchOk envRetry204.tokenReply2.status = true →
      fetchOk envRetry204.apiReply2.status = true →
      (request cfg0 st00 envRetry204 CREDENTIALS opts0).1 =
        .ok (.json envRetry204.apiReply2.body)) :=
  request_success_body_handling cfg0 st00 envRetry204 CREDENTIALS opts0
    tr200.access_token (by rfl)

/-- Claim C4 (confirmed): a non-success initial response other than 401/403
fails immediately with `APIError` carrying that status and the response body
text: exactly one API fetch, no invalidation, one `ensureToken` entry, no
token-endpoint contact beyond the initial token check, and the cache exactly
as the initial token check left it. -/
theorem request_non_auth_failure
    (cfg : ConnConfig) (s : ConnState) (env : Env) (endpoint : String)
    (opts : ReqOptions) (tok : String)
    (h1 : (ensureToken s env.now1 env.nowSet1 env.tokenReply1).1 = .ok tok)
    (hk : fetchOk env.apiReply1.status = false)
    (h401 : ¬ env.apiReply1.status = 401)
    (h403 : ¬ env.apiReply1.status = 403) :
    (request cfg s env endpoint opts).1 =
      .error (.api (API_REQUEST_FAILED ++ ": " ++ env.apiReply1.body)
        env.apiReply1.status) ∧
    countEv Ev.isApiFetch (request cfg s env endpoint opts).2.2 = 1 ∧
    countEv Ev.isInvalidate (request cfg s env endpoint opts).2.2 = 0 ∧
    countEv Ev.isEnsure (request cfg s env endpoint opts).2.2 = 1 ∧
    countEv Ev.isTokenFetch (request cfg s env endpoint opts).2.2 =
      countEv Ev.isTokenFetch (ensureToken s env.now1 env.nowSet1 env.tokenReply1).2.2 ∧
    countEv Ev.isTokenFetch (request cfg s env endpoint opts).2.2 ≤ 1 ∧
    (request cfg s env endpoint opts).2.1 =
      (ensureToken s env.now1 env.nowSet1 env.tokenReply1).2.1 := by
  rcases he : ensureToken s env.now1 env.nowSet1 env.tokenReply1 with ⟨res, s1, ev1⟩
  rw [he] at h1
  have hres : res = Except.ok tok := h1
  subst hres
  have hb1 : (env.apiReply1.status == 401 || env.apiReply1.status == 403) = false := by
    simp [beq_iff_eq, h401, h403]
  have hev0 := ensureToken_trace s env.now1 env.nowSet1 env.tokenReply1
  rw [he] at hev0
  have hev1 : ev1 = [Ev.ensure] ∨ ev1 = [Ev.ensure, Ev.tokenFetch] := hev0
  have hreq := request_plain_err_path_eq cfg s env endpoint opts tok s1 ev1 he hk hb1
  refine ⟨by rw [hreq], ?_, ?_, ?_, ?_, ?_, by rw [hreq]⟩
  · rw [hreq]
    rcases hev1 with h | h <;> subst h <;> simp [countEv, Ev.isApiFetch]
  · rw [hreq]
    rcases hev1 with h | h <;> subst h <;> simp [countEv, Ev.isInvalidate]
  · rw [hreq]
    rcases hev1 with h | h <;> subst h <;> simp [countEv, Ev.isEnsure]
  · rw [hreq]
    rcases hev1 with h | h <;> subst h <;> simp [countEv, Ev.isTokenFetch]
  · rw [hreq]
    rcases hev1 with h | h <;> subst h <;> simp [countEv, Ev.isTokenFetch]

/-- Claim C4 (witness): concrete 500 first reply on a fresh cache. -/
theorem request_non_auth_failure_witness :
    (request cfg0 st00 env500 CREDENTIALS opts0).1 =
      .error (.api (API_REQUEST_FAILED ++ ": " ++ env500.apiReply1.body)
        env500.apiReply1.status) ∧
    countEv Ev.isApiFetch (request cfg0 st00 env500 CREDENTIALS opts0).2.2 = 1 ∧
    countEv Ev.isInvalidate (request cfg0 st00 env500 CREDENTIALS opts0).2.2 = 0 ∧
    countEv Ev.isEnsure (request cfg0 st00 env500 CREDENTIALS opts0).2.2 = 1 ∧
    countEv Ev.isTokenFetch (request cfg0 st00 env500 CREDENTIALS opts0).2.2 =
      countEv Ev.isTokenFetch
        (ensureToken st00 env500.now1 env500.nowSet1 env500.tokenReply1).2.2 ∧
    countEv Ev.isTokenFetch (request cfg0 st00 env500 CREDENTIALS opts0).2.2 ≤ 1 ∧
    (request cfg0 st00 env500 CREDENTIALS opts0).2.1 =
      (ensureToken st00 env500.now1 env500.nowSet1 env500.tokenReply1).2.1 :=
  request_non_auth_failure cfg0 st00 env500 CREDENTIALS opts0
    tr200.access_token (by rfl) (by decide) (by decide) (by decide)

/-- Claim C6 (confirmed): batch link generation fails synchronously with the
local cap error and an empty trace (no token acquisition, no API call) when
the request list has strictly more than 100 items, and for any list of at
most 100 items (including exactly 100) it dispatches the batch POST
normally. -/
theorem generateVerificationLinksBatch_cap
    (cfg : ConnConfig) (s : ConnState) (env : Env)
    (req : BatchGenerateVerificationLinkRequest) :
    (req.requests.length > MAX_REQUESTS →
      generateVerificationLinksBatch cfg s env req =
        (.error (.genericError MAX_BATCH_REQUESTS), s, [])) ∧
    (req.requests.length ≤ MAX_REQUESTS →
      generateVerificationLinksBatch cfg s env req =
        request cfg s env VERIFICATION_GENERATE_LINKS_BATCH
          { method := METHOD_POST, body := some (.jsonOfBatch req) }) := by
  constructor
  · intro h
    simp [generateVerificationLinksBatch, h]
  · intro h
    have h2 : ¬ req.requests.length > MAX_REQUESTS := by omega
    simp [generateVerificationLinksBatch, h2]

/-- Claim C6 (witness): 101 items fail locally with an empty trace, 100 items
dispatch normally. -/
theorem generateVerificationLinksBatch_cap_witness :
    generateVerificationLinksBatch cfg0 st00 env0 req101 =
      (.error (.genericError MAX_BATCH_REQUESTS), st00, []) ∧
    generateVerificationLinksBatch cfg0 st00 env0 req100 =
      request cfg0 st00 env0 VERIFICATION_GENERATE_LINKS_BATCH
        { method := METHOD_POST, body := some (.jsonOfBatch req100) } :=
  ⟨(generateVerificationLinksBatch_cap cfg0 st00 env0 req101).1 (by decide),
   (generateVerificationLinksBatch_cap cfg0 st00 env0 req100).2 (by decide)⟩

/-- Reduction of `checkVerificationStatus` to its classification, the
untouched state and its single unauthenticated fetch event. -/
theorem checkVerificationStatus_eq
    (cfg : ConnConfig) (s : ConnState) (reply : ApiReply) (token : String) :
    checkVerificationStatus cfg s reply token =
      ((if !(fetchOk reply.status) then
          if reply.status == 404 then
            Except.error (SdkError.api TOKEN_NOT_FOUND 404)
          else
            Except.error (SdkError.api
              (FAILED_TO_CHECK_VERIFICATION ++ ": " ++ reply.body) reply.status)
        else Except.ok (JsonResult.json reply.body)),
       s,
       [Ev.apiFetch
          (cfg.baseUrl ++ VERIFICATION_CHECK ++ "/" ++ encodeURIComponent token)
          METHOD_GET none none]) := by
  unfold checkVerificationStatus
  split <;> (try split) <;> simp_all

/-- Claim C8 (confirmed): `checkVerificationStatus` issues one bare fetch with
no Authorization header and no token-manager activity: the cache is returned
untouched and both the outcome and the trace are independent of it; a 404
status is classified specifically as the token-not-found `APIError` with
status 404, and any other non-success status as the generic check failure
carrying the status and body text. -/
theorem checkVerificationStatus_unauthenticated
    (cfg : ConnConfig) (s : ConnState) (reply : ApiReply) (token : String) :
    (checkVerificationStatus cfg s reply token).2.1 = s ∧
    countEv Ev.isEnsure (checkVerificationStatus cfg s reply token).2.2 = 0 ∧
    countEv Ev.isTokenFetch (checkVerificationStatus cfg s reply token).2.2 = 0 ∧
    countEv Ev.isInvalidate (checkVerificationStatus cfg s reply token).2.2 = 0 ∧
    countEv Ev.isApiFetch (checkVerificationStatus cfg s reply token).2.2 = 1 ∧
    (∀ e ∈ (checkVerificationStatus cfg s reply token).2.2,
      e.authHeaderOf = none) ∧
    (∀ s2 : ConnState,
      (checkVerificationStatus cfg s2 reply token).1 =
        (checkVerificationStatus cfg s reply token).1 ∧
      (checkVerificationStatus cfg s2 reply token).2.2 =
        (checkVerificationStatus cfg s reply token).2.2) ∧
    (reply.status = 404 →
      (checkVerificationStatus cfg s reply token).1 =
        .error (.api TOKEN_NOT_FOUND 404)) ∧
    (fetchOk reply.status = false → ¬ reply.status = 404 →
      (checkVerificationStatus cfg s reply token).1 =
        .error (.api (FAILED_TO_CHECK_VERIFICATION ++ ": " ++ reply.body)
          reply.status)) := by
  refine ⟨?_, ?_, ?_, ?_, ?_, ?_, ?_, ?_, ?_⟩
  · rw [checkVerificationStatus_eq]
  · rw [checkVerificationStatus_eq]
    simp [countEv, Ev.isEnsure]
  · rw [checkVerificationStatus_eq]
    simp [countEv, Ev.isTokenFetch]
  · rw [checkVerificationStatus_eq]
    simp [countEv, Ev.isInvalidate]
  · rw [checkVerificationStatus_eq]
    simp [countEv, Ev.isApiFetch]
  · rw [checkVerificationStatus_eq]
    simp [Ev.authHeaderOf]
  · intro s2
    rw [checkVerificationStatus_eq, checkVerificationStatus_eq]
    exact ⟨rfl, rfl⟩
  · intro h404
    rw [checkVerificationStatus_eq]
    simp [h404, fetchOk]
  · intro hko hn404
    rw [checkVerificationStatus_eq]
    simp [hko, beq_iff_eq, hn404]

/-- Claim C8 (witness): concrete 404 reply on the fresh cache. -/
theorem checkVerificationStatus_unauthenticated_witness :
    (checkVerificationStatus cfg0 st00 ar404 PARTY1).2.1 = st00 ∧
    countEv Ev.isEnsure (checkVerificationStatus cfg0 st00 ar404 PARTY1).2.2 = 0 ∧
    countEv Ev.isTokenFetch (checkVerificationStatus cfg0 st00 ar404 PARTY1).2.2 = 0 ∧
    countEv Ev.isInvalidate (checkVerificationStatus cfg0 st00 ar404 PARTY1).2.2 = 0 ∧
    countEv Ev.isApiFetch (checkVerificationStatus cfg0 st00 ar404 PARTY1).2.2 = 1 ∧
    (∀ e ∈ (checkVerificationStatus cfg0 st00 ar404 PARTY1).2.2,
      e.authHeaderOf = none) ∧
    (∀ s2 : ConnState,
      (checkVerificationStatus cfg0 s2 ar404 PARTY1).1 =
        (checkVerificationStatus cfg0 st00 ar404 PARTY1).1 ∧
      (checkVerificationStatus cfg0 s2 ar404 PARTY1).2.2 =
        (checkVerificationStatus cfg0 st00 ar404 PARTY1).2.2) ∧
    (ar404.status = 404 →
      (checkVerificationStatus cfg0 st00 ar404 PARTY1).1 =
        .error (.api TOKEN_NOT_FOUND 404)) ∧
    (fetchOk ar404.status = false → ¬ ar404.status = 404 →
      (checkVerificationStatus cfg0 st00 ar404 PARTY1).1 =
        .error (.api (FAILED_TO_CHECK_VERIFICATION ++ ": " ++ ar404.body)
          ar404.status)) :=
  checkVerificationStatus_unauthenticated cfg0 st00 ar404 PARTY1

/-- Claim C10 (confirmed): for an empty or whitespace-only input, `resolve`
and `reverseResolve` return the empty credential list synchronously with an
untouched cache and an empty trace; for any other input they dispatch a GET
of the resolve endpoint whose query parameter carries the trimmed input. -/
theorem resolve_blank_and_trim
    (cfg : ConnConfig) (s : ConnState) (env : Env) (query partyId : String) :
    ((query = "" ∨ jsTrim query = "") →
      resolve cfg s env query = (.ok .emptyCredentialList, s, [])) ∧
    (¬ (query = "" ∨ jsTrim query = "") →
      resolve cfg s env query =
        liftResolve (request cfg s env
          (RESOLVE_CREDENTIALS ++ "?" ++
            urlSearchParamsToString [("q", jsTrim query)])
          { method := METHOD_GET, body := none })) ∧
    ((partyId = "" ∨ jsTrim partyId = "") →
      reverseResolve cfg s env partyId = (.ok .emptyCredentialList, s, [])) ∧
    (¬ (partyId = "" ∨ jsTrim partyId = "") →
      reverseResolve cfg s env partyId =
        liftResolve (request cfg s env
          (RESOLVE_CREDENTIALS ++ "?" ++
            urlSearchParamsToString [("partyId", jsTrim partyId)])
          { method := METHOD_GET, body := none })) := by
  refine ⟨?_, ?_, ?_, ?_⟩
  · intro h
    have hb : (query == "" || jsTrim query == "") = true := by
      rcases h with h | h <;> simp [h]
    simp [resolve, hb]
  · intro h
    push_neg at h
    have hb : (query == "" || jsTrim query == "") = false := by
      simp [beq_iff_eq, h.1, h.2]
    simp [resolve, hb]
  · intro h
    have hb : (partyId == "" || jsTrim partyId == "") = true := by
      rcases h with h | h <;> simp [h]
    simp [reverseResolve, hb]
  · intro h
    push_neg at h
    have hb : (partyId == "" || jsTrim partyId == "") = false := by
      simp [beq_iff_eq, h.1, h.2]
    simp [reverseResolve, hb]

/-- Claim C10 (witness): a whitespace-only query short-circuits; a concrete
party id dispatches with the trimmed value. -/
theorem resolve_blank_and_trim_witness :
    resolve cfg0 st00 env0 BLANK = (.ok .emptyCredentialList, st00, []) ∧
    reverseResolve cfg0 st00 env0 PARTY1 =
      liftResolve (request cfg0 st00 env0
        (RESOLVE_CREDENTIALS ++ "?" ++
          urlSearchParamsToString [("partyId", jsTrim PARTY1)])
        { method := METHOD_GET, body := none }) :=
  ⟨(resolve_blank_and_trim cfg0 st00 env0 BLANK PARTY1).1 (Or.inr (by decide)),
   (resolve_blank_and_trim cfg0 st00 env0 BLANK PARTY1).2.2.2 (by decide)⟩

/-- The whitespace-only options value refuting claim C7. -/
def optsQblank : ResolveCredentialsOptions := { q := some BLANK, partyId := none }

/-- Claim C7 (counterexample): with exactly one option supplied — `q` holding
the whitespace-only string — the claim predicts a successful routing to the
resolve endpoint with the `q` parameter, but `resolveCredentials` issues no
network call at all: the trace is empty and the result is the local empty
credential list. -/
theorem resolveCredentials_exactly_one_counterexample :
    optsQblank.q.isSome = true ∧
    optsQblank.partyId.isSome = false ∧
    (resolveCredentials cfg0 st00 env0 optsQblank).1 =
      Except.ok ResolveOutcome.emptyCredentialList ∧
    (resolveCredentials cfg0 st00 env0 optsQblank).2.2 = [] := by
  decide

/-- Claim C7 (amended): validation follows JavaScript truthiness — it fails
with the either-required error when both options are absent or empty, with
the both-error when both are nonempty; when exactly one option is nonempty it
dispatches to the matching lookup, which routes a GET to the resolve endpoint
with the matching query parameter holding the trimmed value — unless the
value trims to the empty string, in which case the empty credential list is
returned with no network call. -/
theorem resolveCredentials_validation
    (cfg : ConnConfig) (s : ConnState) (env : Env)
    (options : ResolveCredentialsOptions) :
    (truthy options.q = false → truthy options.partyId = false →
      resolveCredentials cfg s env options =
        (.error (.genericError EITHER_Q_OR_PARTYID), s, [])) ∧
    (truthy options.q = true → truthy options.partyId = true →
      resolveCredentials cfg s env options =
        (.error (.genericError CANNOT_PROVIDE_BOTH), s, [])) ∧
    (∀ p, options.partyId = some p → truthy options.partyId = true →
      truthy options.q = false →
      resolveCredentials cfg s env options = reverseResolve cfg s env p ∧
      (jsTrim p = "" →
        reverseResolve cfg s env p = (.ok .emptyCredentialList, s, [])) ∧
      (¬ jsTrim p = "" →
        reverseResolve cfg s env p =
          liftResolve (request cfg s env
            (RESOLVE_CREDENTIALS ++ "?" ++
              urlSearchParamsToString [("partyId", jsTrim p)])
            { method := METHOD_GET, body := none }))) ∧
    (∀ qv, options.q = some qv → truthy options.q = true →
      truthy options.partyId = false →
      resolveCredentials cfg s env options = resolve cfg s env qv ∧
      (jsTrim qv = "" →
        resolve cfg s env qv = (.ok .emptyCredentialList, s, [])) ∧
      (¬ jsTrim qv = "" →
        resolve cfg s env qv =
          liftResolve (request cfg s env
            (RESOLVE_CREDENTIALS ++ "?" ++
              urlSearchParamsToString [("q", jsTrim qv)])
            { method := METHOD_GET, body := none }))) := by
  refine ⟨?_, ?_, ?_, ?_⟩
  · intro h1 h2
    simp [resolveCredentials, h1, h2]
  · intro h1 h2
    simp [resolveCredentials, h1, h2]
  · intro p hp ht hq
    rw [hp] at ht
    refine ⟨by simp [resolveCredentials, hp, ht, hq], ?_, ?_⟩
    · intro h
      have hb : (p == "" || jsTrim p == "") = true := by simp [h]
      simp [reverseResolve, hb]
    · intro h
      have hp0 : ¬ p = "" := by
        intro he
        apply h
        rw [he]
        rfl
      have hb : (p == "" || jsTrim p == "") = false := by
        simp [beq_iff_eq, hp0, h]
      simp [reverseResolve, hb]
  · intro qv hq ht hp
    rw [hq] at ht
    refine ⟨by simp [resolveCredentials, hq, ht, hp], ?_, ?_⟩
    · intro h
      have hb : (qv == "" || jsTrim qv == "") = true := by simp [h]
      simp [resolve, hb]
    · intro h
      have hq0 : ¬ qv = "" := by
        intro he
        apply h
        rw [he]
        rfl
      have hb : (qv == "" || jsTrim qv == "") = false := by
        simp [beq_iff_eq, hq0, h]
      simp [resolve, hb]

/-- Claim C7 (witness for the amended theorem): a single nonempty `q` routes
through the forward lookup to the resolve endpoint with the trimmed query. -/
theorem resolveCredentials_validation_witness :
    resolveCredentials cfg0 st00 env0 { q := some QUERY1, partyId := none } =
      resolve cfg0 st00 env0 QUERY1 ∧
    resolve cfg0 st00 env0 QUERY1 =
      liftResolve (request cfg0 st00 env0
        (RESOLVE_CREDENTIALS ++ "?" ++
          urlSearchParamsToString [("q", jsTrim QUERY1)])
        { method := METHOD_GET, body := none }) :=
  ⟨((resolveCredentials_validation cfg0 st00 env0
      { q := some QUERY1, partyId := none }).2.2.2 QUERY1 rfl
      (by decide) (by decide)).1,
   ((resolveCredentials_validation cfg0 st00 env0
      { q := some QUERY1, partyId := none }).2.2.2 QUERY1 rfl
      (by decide) (by decide)).2.2 (by decide)⟩

/-- `checkVerificationStatus` leaves the cache untouched. -/
theorem CacheInv_checkVerificationStatus (cfg : ConnConfig) (s : ConnState)
    (h : CacheInv s) (reply : ApiReply) (token : String) :
    CacheInv (checkVerificationStatus cfg s reply token).2.1 := by
  rw [checkVerificationStatus_eq]
  exact h

/-- `resolve` preserves the both-or-neither shape of the cache. -/
theorem CacheInv_resolve (cfg : ConnConfig) (s : ConnState) (h : CacheInv s)
    (env : Env) (query : String) : CacheInv (resolve cfg s env query).2.1 := by
  unfold resolve
  split
  · exact h
  · exact CacheInv_request cfg s h env _ _

/-- `reverseResolve` preserves the both-or-neither shape of the cache. -/
theorem CacheInv_reverseResolve (cfg : ConnConfig) (s : ConnState)
    (h : CacheInv s) (env : Env) (partyId : String) :
    CacheInv (reverseResolve cfg s env partyId).2.1 := by
  unfold reverseResolve
  split
  · exact h
  · exact CacheInv_request cfg s h env _ _

/-- Claim C9 (confirmed): `accessToken` is null iff `tokenExpiresAt` is null,
at construction and after every operation: token acquisition, the dispatcher
including its 401/403 invalidate-and-retry path, and each public method. -/
theorem connection_cache_invariant
    (cfg : ConnConfig) (s : ConnState) (env : Env) (h : CacheInv s)
    (endpoint : String) (opts : ReqOptions) (nowC nowS : Int)
    (tr : TokenEndpointReply) (ar : ApiReply)
    (ccr : CreateCredentialsRequest) (gco : GetCredentialsOptions)
    (glr : GenerateVerificationLinkRequest)
    (bglr : BatchGenerateVerificationLinkRequest)
    (ro : ResolveCredentialsOptions)
    (network baseUrl tokenEndpoint : Option String)
    (pid query vtoken : String) :
    CacheInv (connectionInit network baseUrl tokenEndpoint).2 ∧
    CacheInv (ensureToken s nowC nowS tr).2.1 ∧
    CacheInv (request cfg s env endpoint opts).2.1 ∧
    CacheInv (createCredentialsRequest cfg s env ccr).2.1 ∧
    CacheInv (getCredentials cfg s env gco).2.1 ∧
    CacheInv (getCredentialsByPartyId cfg s env pid).2.1 ∧
    CacheInv (generateVerificationLink cfg s env glr).2.1 ∧
    CacheInv (generateVerificationLinksBatch cfg s env bglr).2.1 ∧
    CacheInv (checkVerificationStatus cfg s ar vtoken).2.1 ∧
    CacheInv (getHumanScore cfg s env pid).2.1 ∧
    CacheInv (resolve cfg s env query).2.1 ∧
    CacheInv (reverseResolve cfg s env pid).2.1 ∧
    CacheInv (resolveCredentials cfg s env ro).2.1 := by
  refine ⟨⟨fun _ => rfl, fun _ => rfl⟩,
    CacheInv_ensureToken s h nowC nowS tr,
    CacheInv_request cfg s h env endpoint opts,
    CacheInv_request cfg s h env _ _,
    CacheInv_request cfg s h env _ _,
    CacheInv_request cfg s h env _ _,
    CacheInv_request cfg s h env _ _,
    ?_,
    CacheInv_checkVerificationStatus cfg s h ar vtoken,
    CacheInv_request cfg s h env _ _,
    CacheInv_resolve cfg s h env query,
    CacheInv_reverseResolve cfg s h env pid,
    ?_⟩
  · unfold generateVerificationLinksBatch
    split
    · exact h
    · exact CacheInv_request cfg s h env _ _
  · unfold resolveCredentials
    split
    · exact h
    · split
      · exact h
      · split
        · exact CacheInv_reverseResolve cfg s h env _
        · exact CacheInv_resolve cfg s h env _

/-- Claim C9 (witness): the invariant instantiated on the fresh cache with
concrete arguments for every operation. -/
theorem connection_cache_invariant_witness :
    CacheInv (connectionInit none none none).2 ∧
    CacheInv (ensureToken st00 0 0 tr200).2.1 ∧
    CacheInv (request cfg0 st00 envRetryOk CREDENTIALS opts0).2.1 ∧
    CacheInv (createCredentialsRequest cfg0 st00 envRetryOk
      { partyId := PARTY1, providers := [] }).2.1 ∧
    CacheInv (getCredentials cfg0 st00 envRetryOk
      { offset := none, limit := none }).2.1 ∧
    CacheInv (getCredentialsByPartyId cfg0 st00 envRetryOk PARTY1).2.1 ∧
    CacheInv (generateVerificationLink cfg0 st00 envRetryOk
      { contractId := PARTY1 }).2.1 ∧
    CacheInv (generateVerificationLinksBatch cfg0 st00 envRetryOk req100).2.1 ∧
    CacheInv (checkVerificationStatus cfg0 st00 ar404 PARTY1).2.1 ∧
    CacheInv (getHumanScore cfg0 st00 envRetryOk PARTY1).2.1 ∧
    CacheInv (resolve cfg0 st00 envRetryOk QUERY1).2.1 ∧
    CacheInv (reverseResolve cfg0 st00 envRetryOk PARTY1).2.1 ∧
    CacheInv (resolveCredentials cfg0 st00 envRetryOk
      { q := some QUERY1, partyId := none }).2.1 :=
  connection_cache_invariant cfg0 st00 envRetryOk CacheInv_st00
    CREDENTIALS opts0 0 0 tr200 ar404
    { partyId := PARTY1, providers := [] } { offset := none, limit := none }
    { contractId := PARTY1 } req100 { q := some QUERY1, partyId := none }
    none none none PARTY1 QUERY1 PARTY1
